import Mathlib

/-!
Verification of the Proxy-Mail gateway (Go sources under `src/`).

The development shallowly embeds the protocol-translation core:
* the two SMTP DATA-relay implementations (`handleSMTPDataMode` and the
  inline relay of `handleSMTPCommands`),
* the dynamic SMTP session handlers (`handleMAIL`, `handleRCPT`,
  `upgradeToSTARTTLS`, `connectToUpstream`),
* the POP3-to-IMAP translator `handleIMAPBackend` as a step function on an
  explicit session state, with upstream traffic recorded as effects.

Byte strings are modelled as Lean `String`s (the protocol text in scope is
ASCII, where Go's byte-level operations and the char-level operations used
here agree).  Go `int` values are modelled as `Int`.
-/

namespace ProxyMail

/-! ### Go string primitives

Char-level models of the `strings` package functions used by the source.
`Char.isWhitespace` covers the ASCII whitespace that occurs in protocol
text; Go's `unicode.IsSpace`/`ToUpper` agree with these on ASCII. -/

/-- `strings.TrimSpace`. -/
def goTrim (s : String) : String :=
  ⟨((s.data.dropWhile Char.isWhitespace).reverse.dropWhile Char.isWhitespace).reverse⟩

/-- `strings.ToUpper` (ASCII). -/
def goToUpper (s : String) : String := ⟨s.data.map Char.toUpper⟩

/-- Accumulator-style worker for `strings.Fields`. -/
def fieldsAux : List Char → List Char → List String
  | [], cur => if cur.isEmpty then [] else [⟨cur.reverse⟩]
  | c :: cs, cur =>
    if c.isWhitespace then
      if cur.isEmpty then fieldsAux cs [] else ⟨cur.reverse⟩ :: fieldsAux cs []
    else fieldsAux cs (c :: cur)

/-- `strings.Fields`: split around runs of whitespace. -/
def goFields (s : String) : List String := fieldsAux s.data []

/-- `strings.HasPrefix`. -/
def goHasPrefix (s pre : String) : Bool := pre.data.isPrefixOf s.data

/-- `strings.Contains`. -/
def goContains (s sub : String) : Bool :=
  s.data.tails.any (fun t => sub.data.isPrefixOf t)

/-- Decimal digit-run value; `none` when empty or a non-digit occurs. -/
def digitsVal? (cs : List Char) : Option Nat :=
  if cs ≠ [] ∧ cs.all Char.isDigit then
    some (cs.foldl (fun a c => a * 10 + (c.toNat - 48)) 0)
  else none

/-- `strconv.Atoi`: optional sign followed by digits. -/
def atoi? (s : String) : Option Int :=
  match s.data with
  | '-' :: rest => (digitsVal? rest).map (fun n => -(n : Int))
  | '+' :: rest => (digitsVal? rest).map (fun n => (n : Int))
  | cs => (digitsVal? cs).map (fun n => (n : Int))

/-! ### Configuration data (`config.go`) -/

/-- `MailServerConfig` from `config.go`. -/
structure MailServerConfig where
  host : String
  port : Int
  useTLS : Bool
  username : String
  password : String
deriving Repr, DecidableEq

/-- `ServerConfig` from `config.go` (a named mailbox profile). -/
structure ServerConfig where
  name : String
  pop3 : Option MailServerConfig
  imap : Option MailServerConfig
  smtp : Option MailServerConfig
deriving Repr, DecidableEq

/-- `Config.GetServerByProtocol`: first server supporting the protocol. -/
def getServerByProtocol (servers : List ServerConfig) (protocol : String) :
    Option ServerConfig :=
  servers.find? (fun sc =>
    if protocol = "pop3" then sc.pop3.isSome
    else if protocol = "imap" then sc.imap.isSome
    else if protocol = "smtp" then sc.smtp.isSome
    else false)

/-! ### SMTP DATA relay, binary-safe path (`handleSMTPDataMode`)

The function reads raw client lines (each as returned by
`bufio.Reader.ReadBytes('\n')`, terminator included), accumulates them in
`messageBuffer`, and on seeing the exact line `".\r\n"` with a non-trivial
buffer forwards the entire buffer — terminator line included — to the
upstream connection.  Charset detection only feeds log output and is
omitted.  `none` models the read-error return (input exhausted before a
valid end marker). -/

def handleSMTPDataMode.go : List String → String → Option String
  | [], _ => none
  | line :: rest, buf =>
    let buf' := buf ++ line
    if line = ".\r\n" ∧ buf'.length > 3 then some buf'
    else handleSMTPDataMode.go rest buf'

/-- `handleSMTPDataMode`: the bytes written upstream, if the relay returns
without a read error. -/
def handleSMTPDataMode (input : List String) : Option String :=
  handleSMTPDataMode.go input ""

/-! ### SMTP DATA relay, inline path (`handleSMTPCommands`, data-mode branch)

The superseded session handler `handleSMTPCommands` relays DATA content
line by line: a line whose `TrimSpace` is `"."` ends the message (a literal
`".\r\n"` is written upstream); any other line is forwarded with a dot
prepended when it starts with `'.'`, its trailing `"\n"` / `"\r\n"`
stripped, and `"\r\n"` appended. -/

/-- One non-terminator line of the inline relay: concatenation of the up to
three `Write` calls made for it. -/
def dotStuffLine (lineBytes : String) : String :=
  let pre := if lineBytes.data.head? = some '.' then "." else ""
  let b1 := if lineBytes.data.getLast? = some '\n' then ⟨lineBytes.data.dropLast⟩ else lineBytes
  let b2 := if b1.data.getLast? = some '\r' then ⟨b1.data.dropLast⟩ else b1
  pre ++ b2 ++ "\r\n"

/-- The inline data-mode loop: upstream writes produced for a stream of raw
client lines, paired with whether the terminator was seen. -/
def legacyDataRelay : List String → List String × Bool
  | [] => ([], false)
  | lb :: rest =>
    if goTrim lb = "." then ([".\r\n"], true)
    else
      let (w, t) := legacyDataRelay rest
      (dotStuffLine lb :: w, t)

/-! ### Base64 (`encoding/base64.StdEncoding.EncodeToString`) -/

def b64Alphabet : List Char :=
  "ABCDEFGHIJKLMNOPQRSTUVWXYZabcdefghijklmnopqrstuvwxyz0123456789+/".data

def b64Char (n : Nat) : Char := b64Alphabet.getD n '='

/-- Standard base64 of a byte list (values `< 256`), with `=` padding. -/
def base64Encode : List Nat → List Char
  | [] => []
  | [a] => [b64Char (a / 4), b64Char (a % 4 * 16), '=', '=']
  | [a, b] => [b64Char (a / 4), b64Char (a % 4 * 16 + b / 16), b64Char (b % 16 * 4), '=']
  | a :: b :: c :: rest =>
    b64Char (a / 4) :: b64Char (a % 4 * 16 + b / 16) ::
      b64Char (b % 16 * 4 + c / 64) :: b64Char (c % 64) :: base64Encode rest

/-- Base64 of the UTF-8 bytes of a string. -/
def base64EncodeStr (s : String) : String :=
  ⟨base64Encode (s.toUTF8.toList.map UInt8.toNat)⟩

/-! ### SMTP upstream connection (`upgradeToSTARTTLS`, `connectToUpstream`,
`autoAuthenticateAfterSTARTTLS`)

Network traffic toward the upstream is recorded as `ConnEff` events; reads
consume a script of upstream response lines (scanner-level, terminators
already stripped).  `handshakeOk` stands for the outcome of
`tls.Client(...).Handshake()`. -/

inductive ConnEff where
  | dialPlain
  | dialTLS
  | tlsHandshake
  | send (s : String)
deriving Repr, DecidableEq

/-- The last line of an SMTP multi-line reply: 4th byte is a space. -/
def isLastRespLine (s : String) : Bool :=
  match s.data with
  | _ :: _ :: _ :: d :: _ => d = ' '
  | _ => false

/-- The EHLO-reply consumption loop of `upgradeToSTARTTLS`: drop lines until
one is a reply-terminating line (or the scanner is exhausted). -/
def skipMultiline : List String → List String
  | [] => []
  | r :: rest => if isLastRespLine r then rest else skipMultiline rest

/-- `autoAuthenticateAfterSTARTTLS`: AUTH LOGIN handshake over the upgraded
connection.  Returns the events plus either the remaining script or the Go
error string. -/
def autoAuthenticateAfterSTARTTLS (config : MailServerConfig)
    (script : List String) : List ConnEff × Except String (List String) :=
  let e0 := [ConnEff.send "AUTH LOGIN\r\n"]
  match script with
  | [] => (e0, .error "failed to read username prompt")
  | r1 :: s1 =>
    if ¬ goHasPrefix r1 "334" then
      (e0, .error ("unexpected response to AUTH LOGIN: " ++ r1))
    else
      let e1 := e0 ++ [ConnEff.send (base64EncodeStr config.username ++ "\r\n")]
      match s1 with
      | [] => (e1, .error "failed to read password prompt")
      | r2 :: s2 =>
        if ¬ goHasPrefix r2 "334" then
          (e1, .error ("unexpected response to password prompt: " ++ r2))
        else
          let e2 := e1 ++ [ConnEff.send (base64EncodeStr config.password ++ "\r\n")]
          match s2 with
          | [] => (e2, .error "failed to read auth result")
          | r3 :: s3 =>
            if ¬ goHasPrefix r3 "235" then
              (e2, .error ("authentication failed: " ++ r3))
            else (e2, .ok s3)

/-- `upgradeToSTARTTLS`: greeting, EHLO, STARTTLS, TLS handshake, fresh EHLO
and automatic authentication.  The `tlsHandshake` event is emitted exactly
where `tls.Client(conn, ...).Handshake()` runs in the source. -/
def upgradeToSTARTTLS (config : MailServerConfig) (handshakeOk : Bool)
    (script : List String) : List ConnEff × Except String (List String) :=
  match script with
  | [] => ([], .error "failed to read SMTP greeting")
  | _greeting :: s1 =>
    let e1 := [ConnEff.send "EHLO localhost\r\n"]
    let s2 := skipMultiline s1
    let e2 := e1 ++ [ConnEff.send "STARTTLS\r\n"]
    match s2 with
    | [] => (e2, .error "failed to read STARTTLS response")
    | r :: s3 =>
      if ¬ goHasPrefix r "220" then
        (e2, .error ("STARTTLS failed: " ++ r))
      else
        let e3 := e2 ++ [ConnEff.tlsHandshake]
        if ¬ handshakeOk then (e3, .error "TLS handshake failed")
        else
          let e4 := e3 ++ [ConnEff.send "EHLO localhost\r\n"]
          let s4 := skipMultiline s3
          let (e5, res) := autoAuthenticateAfterSTARTTLS config s4
          match res with
          | .error msg => (e4 ++ e5, .error ("auto-authentication failed: " ++ msg))
          | .ok s5 => (e4 ++ e5, .ok s5)

/-- Outcome of `connectToUpstream`: an established connection with the
remaining script, a clean error return, or a Go panic. -/
inductive ConnResult where
  | ok (rest : List String)
  | err (msg : String)
  | panicked
deriving Repr, DecidableEq

/-- `connectToUpstream`: direct TLS for 465, plain dial otherwise, STARTTLS
upgrade for 587 with TLS enabled.  `dialOk` stands for the TCP/TLS dial
outcome.  On the upgrade-failure branch the source reassigns
`upstreamConn` to the nil connection that `upgradeToSTARTTLS` returned and
then calls `upstreamConn.Close()` on it — a nil-interface method call,
hence an unrecovered panic (no `recover` exists in the program), modelled
as `ConnResult.panicked`: the `STARTTLS upgrade failed` error return below
it is never reached. -/
def connectToUpstream (cfg : MailServerConfig) (dialOk handshakeOk : Bool)
    (script : List String) : List ConnEff × ConnResult :=
  let dialEff := if cfg.port = 465 ∧ cfg.useTLS then ConnEff.dialTLS else ConnEff.dialPlain
  if ¬ dialOk then
    ([dialEff], .err ("failed to connect to " ++ cfg.host))
  else if cfg.port = 587 ∧ cfg.useTLS then
    let (effs, res) := upgradeToSTARTTLS cfg handshakeOk script
    match res with
    | .error _ => (dialEff :: effs, .panicked)
    | .ok rest => (dialEff :: effs, .ok rest)
  else ([dialEff], .ok script)

/-! ### Dynamic SMTP session (`handleSMTPSessionDynamic`) -/

/-- The `smtpState` struct (Go booleans/strings; `hasUpstream` models
`upstreamConn != nil`). -/
structure SmtpState where
  isAuthenticated : Bool
  authUsername : String
  authState : String
  mailboxName : String
  hasUpstream : Bool
  serverConfig : Option ServerConfig
  inDataMode : Bool
  heloHost : String
deriving Repr, DecidableEq

def SmtpState.init : SmtpState :=
  ⟨false, "", "", "", false, none, false, ""⟩

/-- Observable actions of a session handler. -/
inductive SmtpEff where
  | toClient (s : String)
  | toUpstream (s : String)
  | dial
deriving Repr, DecidableEq

/-- `extractEmailFromMailFrom`: the address following `FROM:`, angle
brackets removed, else the first word. -/
def extractEmailFromMailFrom (line : String) : String :=
  let upper := (goToUpper line).data
  let rec findFrom : List Char → Option Nat
    | [] => none
    | l@(_ :: cs) =>
      if ("FROM:".data).isPrefixOf l then some 0
      else (findFrom cs).map (· + 1)
  match findFrom upper with
  | none => ""
  | some start =>
    let remainder := goTrim ⟨line.data.drop (start + 5)⟩
    if goHasPrefix remainder "<" ∧ remainder.data.getLast? = some '>' then
      ⟨(remainder.data.drop 1).dropLast⟩
    else
      match goFields remainder with
      | f :: _ => f
      | [] => remainder

/-- `findServerConfigBySender`: exact SMTP-username match, else the first
profile with an SMTP section. -/
def findServerConfigBySender (servers : List ServerConfig) (senderEmail : String) :
    Option ServerConfig :=
  match servers.find? (fun sc =>
      match sc.smtp with
      | some m => m.username = senderEmail
      | none => false) with
  | some sc => some sc
  | none => servers.find? (fun sc => sc.smtp.isSome)

/-- Result of one client-command handler of `handleSMTPSessionDynamic`.
`stuck` marks the source's pathological path (read failure inside the
upstream EHLO reply loop, whose `continue` re-enters the inner loop and
dereferences the closed connection). -/
structure MailOutcome where
  st : SmtpState
  eff : List SmtpEff
  rest : List String
  stuck : Bool
deriving Repr, DecidableEq

/-- The EHLO-reply loop of the `MAIL` case: reads until a line whose
trimmed text has a space as 4th byte; `none` on read failure. -/
def skipMultilineMail : List String → Option (List String)
  | [] => none
  | r :: rest => if isLastRespLine (goTrim r) then some rest else skipMultilineMail rest

/-- The `case "MAIL"` body of `handleSMTPSessionDynamic`.  `dialResult`
stands for the `connectToUpstream` call; `script` is the stream of raw
upstream reply lines (as `ReadString('\n')` returns them, terminator
included). -/
def handleMAIL (servers : List ServerConfig) (st : SmtpState) (line : String)
    (dialResult : Except String Unit) (script : List String) : MailOutcome :=
  let senderEmail := extractEmailFromMailFrom line
  if senderEmail = "" then
    ⟨st, [.toClient "501 Invalid MAIL FROM format\r\n"], script, false⟩
  else
    -- authentication / binding
    let bound : SmtpState ⊕ MailOutcome :=
      if ¬ st.isAuthenticated then
        match findServerConfigBySender servers senderEmail with
        | none =>
          .inr ⟨st, [.toClient "550 No upstream SMTP server configured for sending mail\r\n"],
                script, false⟩
        | some sc =>
          .inl { st with serverConfig := some sc, authUsername := senderEmail,
                         mailboxName := senderEmail, isAuthenticated := true }
      else if senderEmail ≠ st.authUsername then
        .inr ⟨st, [.toClient "550 Sender address must match authenticated user\r\n"],
              script, false⟩
      else .inl st
    match bound with
    | .inr out => out
    | .inl st1 =>
      -- upstream connection establishment
      let conn : MailOutcome ⊕ (SmtpState × List SmtpEff × List String) :=
        if ¬ st1.hasUpstream then
          match dialResult with
          | .error _ =>
            .inl ⟨st1, [.dial, .toClient "451 Local error in processing\r\n"], script, false⟩
          | .ok _ =>
            match script with
            | [] =>
              .inl ⟨{ st1 with hasUpstream := false },
                    [.dial, .toClient "451 Local error in processing\r\n"], [], false⟩
            | _greeting :: s1 =>
              let e1 := [SmtpEff.dial, SmtpEff.toUpstream "EHLO proxy-mail\r\n"]
              match skipMultilineMail s1 with
              | none => .inl ⟨{ st1 with hasUpstream := true }, e1, [], true⟩
              | some s2 =>
                let e2 := e1 ++ [SmtpEff.toUpstream "AUTH LOGIN\r\n"]
                match s2 with
                | [] =>
                  .inl ⟨{ st1 with hasUpstream := false },
                        e2 ++ [.toClient "451 Local error in processing\r\n"], [], false⟩
                | r1 :: s3 =>
                  if ¬ goHasPrefix (goTrim r1) "334" then
                    .inl ⟨{ st1 with hasUpstream := false },
                          e2 ++ [.toClient "451 Local error in processing\r\n"], s3, false⟩
                  else
                    let e3 := e2 ++
                      [SmtpEff.toUpstream (base64EncodeStr (match st1.serverConfig with
                        | some sc => (match sc.smtp with
                          | some m => m.username
                          | none => "")
                        | none => "") ++ "\r\n")]
                    match s3 with
                    | [] =>
                      .inl ⟨{ st1 with hasUpstream := false },
                            e3 ++ [.toClient "451 Local error in processing\r\n"], [], false⟩
                    | r2 :: s4 =>
                      if ¬ goHasPrefix (goTrim r2) "334" then
                        .inl ⟨{ st1 with hasUpstream := false },
                              e3 ++ [.toClient "451 Local error in processing\r\n"], s4, false⟩
                      else
                        let e4 := e3 ++
                          [SmtpEff.toUpstream (base64EncodeStr (match st1.serverConfig with
                            | some sc => (match sc.smtp with
                              | some m => m.password
                              | none => "")
                            | none => "") ++ "\r\n")]
                        match s4 with
                        | [] =>
                          .inl ⟨{ st1 with hasUpstream := false },
                                e4 ++ [.toClient "451 Local error in processing\r\n"], [], false⟩
                        | r3 :: s5 =>
                          if ¬ goHasPrefix (goTrim r3) "235" then
                            .inl ⟨{ st1 with hasUpstream := false },
                                  e4 ++ [.toClient "451 Local error in processing\r\n"], s5, false⟩
                          else .inr ({ st1 with hasUpstream := true }, e4, s5)
        else .inr (st1, [], script)
      match conn with
      | .inl out => out
      | .inr (st2, effs, s6) =>
        -- forward MAIL FROM and relay the upstream response verbatim
        let effs1 := effs ++ [SmtpEff.toUpstream (line ++ "\r\n")]
        match s6 with
        | [] => ⟨st2, effs1 ++ [.toClient "451 Local error in processing\r\n"], [], false⟩
        | r :: s7 => ⟨st2, effs1 ++ [.toClient r], s7, false⟩

/-- The `case "RCPT"` body of `handleSMTPSessionDynamic`. -/
def handleRCPT (st : SmtpState) (line : String) (script : List String) :
    SmtpState × List SmtpEff × List String :=
  if ¬ st.isAuthenticated ∨ ¬ st.hasUpstream then
    (st, [.toClient "530 Authentication required\r\n"], script)
  else
    match script with
    | [] => (st, [.toUpstream (line ++ "\r\n"), .toClient "451 Local error in processing\r\n"], [])
    | r :: rest => (st, [.toUpstream (line ++ "\r\n"), .toClient r], rest)

/-! ### POP3-to-IMAP translator (`handleIMAPBackend`)

The handler is embedded as a step function on an explicit session state.
Upstream IMAP commands are recorded structurally as `UpCmd` values; the
`wire` function renders exactly the `fmt.Sprintf` strings the source sends.
Upstream responses are consumed from a script of scanner lines. -/

/-- `IMAPMessage`.  Modelled from the spec: the struct's declaration is not
under `src/` (only `var messages []IMAPMessage` and `msg.Size` appear);
§3's `mailboxSnapshot` carries a per-message size, which is the only field
the translator reads. -/
structure IMAPMessage where
  Size : Int
deriving Repr, DecidableEq

/-- A tagged IMAP command issued by the translator. -/
inductive UpCmd where
  | login (tag : Int) (user pass : String)
  | selectInbox (tag : Int)
  | fetch (tag : Int) (n : Int)
  | storeAdd (tag : Int) (n : Int)
  | storeClear (tag : Int) (count : Int)
  | expunge (tag : Int)
  | logout (tag : Int)
deriving Repr, DecidableEq

def UpCmd.tag : UpCmd → Int
  | .login t _ _ => t
  | .selectInbox t => t
  | .fetch t _ => t
  | .storeAdd t _ => t
  | .storeClear t _ => t
  | .expunge t => t
  | .logout t => t

/-- `fmt.Sprintf("A%d", tag)` prefix. -/
def tagStr (t : Int) : String := "A" ++ toString t

/-- Exact wire rendering of each upstream command (the `fmt.Sprintf`
format strings of the source). -/
def UpCmd.wire : UpCmd → String
  | .login t u p => tagStr t ++ " LOGIN " ++ u ++ " " ++ p ++ "\r\n"
  | .selectInbox t => tagStr t ++ " SELECT INBOX\r\n"
  | .fetch t n => tagStr t ++ " FETCH " ++ toString n ++ " (RFC822)\r\n"
  | .storeAdd t n => tagStr t ++ " STORE " ++ toString n ++ " +FLAGS (\\Deleted)\r\n"
  | .storeClear t c => tagStr t ++ " STORE 1:" ++ toString c ++ " -FLAGS (\\Deleted)\r\n"
  | .expunge t => tagStr t ++ " EXPUNGE\r\n"
  | .logout t => tagStr t ++ " LOGOUT\r\n"

/-- Observable actions of the POP3 session handler. -/
inductive PEff where
  | toClient (s : String)
  | toUpstream (c : UpCmd)
  | dial (host : String) (port : Int) (tls : Bool)
deriving Repr, DecidableEq

/-- Session-local variables of `handleIMAPBackend`. -/
structure Pop3SessionState where
  imapTag : Int
  authenticated : Bool
  selectedMailbox : Bool
  messageCount : Int
  messages : List IMAPMessage
  clientUsername : String
  serverConfig : Option ServerConfig
  pop3State : String
  hasUpstream : Bool
  upstreamConfig : Option MailServerConfig
  protocol : String
deriving Repr, DecidableEq

/-- Initial state: `imapTag = 1000`, `AUTHORIZATION` phase, nothing bound. -/
def pop3Init : Pop3SessionState :=
  ⟨1000, false, false, 0, [], "", none, "AUTHORIZATION", false, none, ""⟩

/-- Result of handling one client line.  `closed` models `return`;
`crashed` models a write through a nil upstream connection or a nil
upstream-config dereference (a Go panic). -/
structure PStep where
  st : Pop3SessionState
  eff : List PEff
  rest : List String
  closed : Bool
  crashed : Bool
deriving Repr, DecidableEq

/-- The client error line used by every out-of-phase branch. -/
def errBadState : String := "-ERR Command not valid in this state\r\n"

/-- `USER`: case-insensitive match over configured POP3/IMAP usernames. -/
def findUserConfig (servers : List ServerConfig) (u : String) : Option ServerConfig :=
  servers.find? (fun sc =>
    (match sc.pop3 with
     | some m => goToUpper m.username = goToUpper u
     | none => false) ||
    (match sc.imap with
     | some m => goToUpper m.username = goToUpper u
     | none => false))

def handleUSER (servers : List ServerConfig) (st : Pop3SessionState)
    (parts : List String) (script : List String) : PStep :=
  if st.pop3State ≠ "AUTHORIZATION" then
    ⟨st, [.toClient errBadState], script, false, false⟩
  else if parts.length ≠ 2 then
    ⟨st, [.toClient "-ERR Missing username\r\n"], script, false, false⟩
  else
    let u := parts.getD 1 ""
    -- a match overwrites `serverConfig`; otherwise the previous value survives
    let sc0 := match findUserConfig servers u with
      | some c => some c
      | none => st.serverConfig
    match sc0 with
    | none =>
      match (match getServerByProtocol servers "imap" with
             | some c => some c
             | none => getServerByProtocol servers "pop3") with
      | none =>
        ⟨{ st with clientUsername := u }, [.toClient "-ERR Invalid username\r\n"],
         script, false, false⟩
      | some c =>
        ⟨{ st with clientUsername := u, serverConfig := some c },
         [.toClient "+OK User accepted\r\n"], script, false, false⟩
    | some c =>
      ⟨{ st with clientUsername := u, serverConfig := some c },
       [.toClient "+OK User accepted\r\n"], script, false, false⟩

/-- Outcome of the LOGIN response loop: tagged `OK`, tagged `NO`/`BAD`, or
scanner exhaustion. -/
inductive TagRead where
  | ok (rest : List String)
  | bad (rest : List String)
  | exhausted
deriving Repr, DecidableEq

def readLoginResp (t : Int) : List String → TagRead
  | [] => .exhausted
  | r :: rest =>
    if goHasPrefix r (tagStr t ++ " OK") then .ok rest
    else if goHasPrefix r (tagStr t ++ " NO") || goHasPrefix r (tagStr t ++ " BAD") then
      .bad rest
    else readLoginResp t rest

/-- The SELECT response loop: every line is first scanned for `EXISTS`
(updating the message count), then checked for the tagged status. -/
def readSelectResp (t : Int) (count : Int) : List String → Int × TagRead
  | [] => (count, .exhausted)
  | r :: rest =>
    let count' :=
      if goContains r "EXISTS" then
        match goFields r with
        | _ :: f1 :: _ =>
          match atoi? f1 with
          | some n => n
          | none => count
        | _ => count
      else count
    if goHasPrefix r (tagStr t ++ " OK") then (count', .ok rest)
    else if goHasPrefix r (tagStr t ++ " NO") || goHasPrefix r (tagStr t ++ " BAD") then
      (count', .bad rest)
    else readSelectResp t count' rest

/-- Prefix a step's effect list, leaving the rest of it unchanged (used to
thread effects already emitted into the continuation of a handler). -/
def PStep.withEff (pre : List PEff) (r : PStep) : PStep :=
  ⟨r.st, pre ++ r.eff, r.rest, r.closed, r.crashed⟩

/-- The tail of the `PASS` handler after authentication and SELECT: enter
`TRANSACTION` and confirm to the client. -/
def passFinish (st : Pop3SessionState) (s : List String) : PStep :=
  ⟨{ st with pop3State := "TRANSACTION" },
   [.toClient "+OK Mailbox locked and ready\r\n"], s, false, false⟩

/-- The `SELECT INBOX` section of the `PASS` handler (runs once per
session; `EXISTS` responses update the message count). -/
def passSelect (_ucfg : MailServerConfig) (st : Pop3SessionState)
    (s : List String) : PStep :=
  if ¬ st.selectedMailbox then
    let t := st.imapTag + 1
    let e := [PEff.toUpstream (.selectInbox t)]
    match readSelectResp t st.messageCount s with
    | (c, .ok rest) =>
      PStep.withEff e
        (passFinish { st with imapTag := t, messageCount := c, selectedMailbox := true } rest)
    | (c, .bad rest) =>
      ⟨{ st with imapTag := t, messageCount := c },
       e ++ [.toClient "-ERR Cannot select INBOX\r\n"], rest, true, false⟩
    | (c, .exhausted) =>
      PStep.withEff e (passFinish { st with imapTag := t, messageCount := c } [])
  else passFinish st s

/-- The `LOGIN` section of the `PASS` handler. -/
def passAuth (ucfg : MailServerConfig) (st : Pop3SessionState)
    (s : List String) : PStep :=
  if ¬ st.authenticated then
    let t := st.imapTag + 1
    let e := [PEff.toUpstream (.login t ucfg.username ucfg.password)]
    match readLoginResp t s with
    | .ok rest =>
      PStep.withEff e (passSelect ucfg { st with imapTag := t, authenticated := true } rest)
    | .bad rest =>
      ⟨{ st with imapTag := t },
       e ++ [.toClient "-ERR Authentication failed\r\n"], rest, true, false⟩
    | .exhausted => ⟨{ st with imapTag := t }, e, [], false, false⟩
  else passSelect ucfg st s

def handlePASS (_servers : List ServerConfig) (dialOk : Bool)
    (st : Pop3SessionState) (script : List String) : PStep :=
  if st.pop3State ≠ "AUTHORIZATION" then
    ⟨st, [.toClient errBadState], script, false, false⟩
  else
    match st.serverConfig with
    | none => ⟨st, [.toClient "-ERR USER command first\r\n"], script, false, false⟩
    | some sc =>
      match (match sc.imap with
             | some m => some (m, "IMAP")
             | none => (match sc.pop3 with
                        | some m => some (m, "POP3")
                        | none => none)) with
      | none => ⟨st, [], script, false, true⟩   -- nil upstreamConfig dereference
      | some (ucfg, proto) =>
        let st1 := { st with upstreamConfig := some ucfg, protocol := proto }
        -- lazy connect, reading the greeting when one is available
        if ¬ st1.hasUpstream then
          if ¬ dialOk then
            ⟨st1, [.dial ucfg.host ucfg.port ucfg.useTLS,
                   .toClient "-ERR Cannot connect to mail server\r\n"],
             script, true, false⟩
          else
            PStep.withEff [.dial ucfg.host ucfg.port ucfg.useTLS]
              (passAuth ucfg { st1 with hasUpstream := true } (script.drop 1))
        else passAuth ucfg st1 script

def handleSTAT (st : Pop3SessionState) (script : List String) : PStep :=
  if st.pop3State ≠ "TRANSACTION" then
    ⟨st, [.toClient errBadState], script, false, false⟩
  else
    let totalSize := (st.messages.map IMAPMessage.Size).sum
    ⟨st, [.toClient ("+OK " ++ toString st.messageCount ++ " " ++ toString totalSize ++ "\r\n")],
     script, false, false⟩

/-- `LIST` with no argument: one `<n> 1024` line per message. -/
def listAllLines (count : Int) : List String :=
  (List.range count.toNat).map (fun j => toString (j + 1) ++ " 1024\r\n")

def handleLIST (st : Pop3SessionState) (parts : List String) (script : List String) : PStep :=
  if st.pop3State ≠ "TRANSACTION" then
    ⟨st, [.toClient errBadState], script, false, false⟩
  else if parts.length = 1 then
    ⟨st, (.toClient ("+OK " ++ toString st.messageCount ++ " messages\r\n")) ::
         (listAllLines st.messageCount).map PEff.toClient ++ [.toClient ".\r\n"],
     script, false, false⟩
  else if parts.length = 2 then
    match atoi? (parts.getD 1 "") with
    | some n =>
      if n > 0 ∧ n ≤ st.messageCount then
        ⟨st, [.toClient ("+OK " ++ toString n ++ " 1024\r\n")], script, false, false⟩
      else ⟨st, [.toClient "-ERR No such message\r\n"], script, false, false⟩
    | none => ⟨st, [.toClient "-ERR No such message\r\n"], script, false, false⟩
  else ⟨st, [], script, false, false⟩    -- three or more fields: no response at all

/-- `UIDL` lines: UIDs synthesized as `<username>.<n>`. -/
def uidlAllLines (username : String) (count : Int) : List String :=
  (List.range count.toNat).map
    (fun j => toString (j + 1) ++ " " ++ username ++ "." ++ toString (j + 1) ++ "\r\n")

def handleUIDL (st : Pop3SessionState) (parts : List String) (script : List String) : PStep :=
  if st.pop3State ≠ "TRANSACTION" then
    ⟨st, [.toClient errBadState], script, false, false⟩
  else
    match st.upstreamConfig with
    | none => ⟨st, [], script, false, true⟩   -- nil upstreamConfig dereference
    | some ucfg =>
      if parts.length = 1 then
        ⟨st, (.toClient "+OK unique-id listing follows\r\n") ::
             (uidlAllLines ucfg.username st.messageCount).map PEff.toClient ++
             [.toClient ".\r\n"],
         script, false, false⟩
      else if parts.length = 2 then
        match atoi? (parts.getD 1 "") with
        | some n =>
          if n > 0 ∧ n ≤ st.messageCount then
            ⟨st, [.toClient ("+OK " ++ toString n ++ " " ++ ucfg.username ++ "." ++
                             toString n ++ "\r\n")], script, false, false⟩
          else ⟨st, [.toClient "-ERR No such message\r\n"], script, false, false⟩
        | none => ⟨st, [.toClient "-ERR No such message\r\n"], script, false, false⟩
      else ⟨st, [], script, false, false⟩

/-- The RETR forwarding loop: stream lines between the `RFC822` literal
marker and the tagged `OK` to the client, skipping `)`-prefixed lines.
Returns the client lines and the remaining script. -/
def retrLoop (t : Int) : List String → Bool → List String × List String
  | [], _ => ([], [])
  | r :: rest, inMsg =>
    if goContains r "RFC822" then retrLoop t rest true
    else if inMsg then
      if goHasPrefix r (tagStr t ++ " OK") then ([], rest)
      else if goHasPrefix r ")" then retrLoop t rest inMsg
      else
        let (out, rem) := retrLoop t rest inMsg
        ((r ++ "\r\n") :: out, rem)
    else retrLoop t rest inMsg

def handleRETR (st : Pop3SessionState) (parts : List String) (script : List String) : PStep :=
  if st.pop3State ≠ "TRANSACTION" then
    ⟨st, [.toClient errBadState], script, false, false⟩
  else if parts.length ≠ 2 then
    ⟨st, [.toClient "-ERR Invalid syntax\r\n"], script, false, false⟩
  else
    match atoi? (parts.getD 1 "") with
    | none => ⟨st, [.toClient "-ERR No such message\r\n"], script, false, false⟩
    | some n =>
      if n < 1 ∨ n > st.messageCount then
        ⟨st, [.toClient "-ERR No such message\r\n"], script, false, false⟩
      else if ¬ st.hasUpstream then ⟨st, [], script, false, true⟩
      else
        let t := st.imapTag + 1
        let (out, rem) := retrLoop t script false
        ⟨{ st with imapTag := t },
         (.toUpstream (.fetch t n)) :: (.toClient "+OK Message follows\r\n") ::
           out.map PEff.toClient ++ [.toClient ".\r\n"],
         rem, false, false⟩

/-- The TOP forwarding loop: headers unconditionally, then at most `k` body
lines after the first empty line, until the tagged `OK`. -/
def topLoop (t : Int) (k : Int) :
    List String → Bool → Bool → Int → List String × List String
  | [], _, _, _ => ([], [])
  | r :: rest, inMsg, headersDone, bodyLines =>
    if goContains r "RFC822" then topLoop t k rest true headersDone bodyLines
    else if inMsg then
      if goHasPrefix r (tagStr t ++ " OK") then ([], rest)
      else if goHasPrefix r ")" then topLoop t k rest inMsg headersDone bodyLines
      else if ¬ headersDone ∧ r = "" then
        let (out, rem) := topLoop t k rest inMsg true bodyLines
        ("\r\n" :: out, rem)
      else if ¬ headersDone then
        let (out, rem) := topLoop t k rest inMsg headersDone bodyLines
        ((r ++ "\r\n") :: out, rem)
      else if bodyLines < k then
        let (out, rem) := topLoop t k rest inMsg headersDone (bodyLines + 1)
        ((r ++ "\r\n") :: out, rem)
      else topLoop t k rest inMsg headersDone bodyLines
    else topLoop t k rest inMsg headersDone bodyLines

def handleTOP (st : Pop3SessionState) (parts : List String) (script : List String) : PStep :=
  if st.pop3State ≠ "TRANSACTION" then
    ⟨st, [.toClient errBadState], script, false, false⟩
  else if parts.length ≠ 3 then
    ⟨st, [.toClient "-ERR Invalid syntax\r\n"], script, false, false⟩
  else
    match atoi? (parts.getD 1 "") with
    | none => ⟨st, [.toClient "-ERR No such message\r\n"], script, false, false⟩
    | some n =>
      if n < 1 ∨ n > st.messageCount then
        ⟨st, [.toClient "-ERR No such message\r\n"], script, false, false⟩
      else
        match atoi? (parts.getD 2 "") with
        | none => ⟨st, [.toClient "-ERR Invalid line count\r\n"], script, false, false⟩
        | some k =>
          if k < 0 then
            ⟨st, [.toClient "-ERR Invalid line count\r\n"], script, false, false⟩
          else if ¬ st.hasUpstream then ⟨st, [], script, false, true⟩
          else
            let t := st.imapTag + 1
            let (out, rem) := topLoop t k script false false 0
            ⟨{ st with imapTag := t },
             (.toUpstream (.fetch t n)) :: (.toClient "+OK Top of message follows\r\n") ::
               out.map PEff.toClient ++ [.toClient ".\r\n"],
             rem, false, false⟩

/-- Consume script lines until the tagged `OK` (exhaustion consumes all). -/
def readUntilOK (t : Int) : List String → List String
  | [] => []
  | r :: rest => if goHasPrefix r (tagStr t ++ " OK") then rest else readUntilOK t rest

def handleDELE (st : Pop3SessionState) (parts : List String) (script : List String) : PStep :=
  if st.pop3State ≠ "TRANSACTION" then
    ⟨st, [.toClient errBadState], script, false, false⟩
  else if parts.length ≠ 2 then
    ⟨st, [.toClient "-ERR Invalid syntax\r\n"], script, false, false⟩
  else
    match atoi? (parts.getD 1 "") with
    | none => ⟨st, [.toClient "-ERR No such message\r\n"], script, false, false⟩
    | some n =>
      if n < 1 ∨ n > st.messageCount then
        ⟨st, [.toClient "-ERR No such message\r\n"], script, false, false⟩
      else if ¬ st.hasUpstream then ⟨st, [], script, false, true⟩
      else
        let t := st.imapTag + 1
        ⟨{ st with imapTag := t },
         [.toUpstream (.storeAdd t n),
          .toClient ("+OK Message " ++ toString n ++ " deleted\r\n")],
         readUntilOK t script, false, false⟩

def handleNOOP (st : Pop3SessionState) (script : List String) : PStep :=
  ⟨st, [.toClient "+OK\r\n"], script, false, false⟩

def handleRSET (st : Pop3SessionState) (script : List String) : PStep :=
  if st.pop3State ≠ "TRANSACTION" then
    ⟨st, [.toClient errBadState], script, false, false⟩
  else if ¬ st.hasUpstream then ⟨st, [], script, false, true⟩
  else
    let t := st.imapTag + 1
    ⟨{ st with imapTag := t },
     [.toUpstream (.storeClear t st.messageCount), .toClient "+OK\r\n"],
     readUntilOK t script, false, false⟩

def handleQUIT (st : Pop3SessionState) (script : List String) : PStep :=
  if st.pop3State = "TRANSACTION" then
    if ¬ st.hasUpstream then ⟨st, [], script, false, true⟩
    else
      let t := st.imapTag + 1
      let rem := readUntilOK t script
      let t2 := t + 1
      ⟨{ st with imapTag := t2 },
       [.toUpstream (.expunge t), .toUpstream (.logout t2),
        .toClient "+OK Goodbye\r\n"],
       rem, true, false⟩
  else if ¬ st.hasUpstream then ⟨st, [], script, false, true⟩
  else
    let t := st.imapTag + 1
    ⟨{ st with imapTag := t },
     [.toUpstream (.logout t), .toClient "+OK Goodbye\r\n"],
     script, true, false⟩

/-- Command dispatch of `handleIMAPBackend` (on the first field of the
uppercased line). -/
def pop3Dispatch (servers : List ServerConfig) (dialOk : Bool)
    (st : Pop3SessionState) (script : List String) (parts : List String) : PStep :=
  match parts with
  | [] => ⟨st, [], script, false, false⟩
  | cmd :: _ =>
    if cmd = "USER" then handleUSER servers st parts script
    else if cmd = "PASS" then handlePASS servers dialOk st script
    else if cmd = "STAT" then handleSTAT st script
    else if cmd = "LIST" then handleLIST st parts script
    else if cmd = "UIDL" then handleUIDL st parts script
    else if cmd = "RETR" then handleRETR st parts script
    else if cmd = "TOP" then handleTOP st parts script
    else if cmd = "DELE" then handleDELE st parts script
    else if cmd = "NOOP" then handleNOOP st script
    else if cmd = "RSET" then handleRSET st script
    else if cmd = "QUIT" then handleQUIT st script
    else ⟨st, [.toClient "-ERR Unknown command\r\n"], script, false, false⟩

/-- Handling of one raw client line: trim, uppercase, split into fields,
dispatch. -/
def pop3Step (servers : List ServerConfig) (dialOk : Bool)
    (st : Pop3SessionState) (script : List String) (line : String) : PStep :=
  let l := goTrim line
  if l = "" then ⟨st, [], script, false, false⟩
  else pop3Dispatch servers dialOk st script (goFields (goToUpper l))

/-- Aggregated result of a client-line sequence. -/
structure PRun where
  st : Pop3SessionState
  eff : List PEff
  closed : Bool
  crashed : Bool
deriving Repr, DecidableEq

/-- Run the session loop over a list of client lines, threading the
upstream script; stops when a handler returns or crashes. -/
def pop3Run (servers : List ServerConfig) (dialOk : Bool) :
    Pop3SessionState → List String → List String → PRun
  | st, [], _ => ⟨st, [], false, false⟩
  | st, l :: ls, script =>
    let r := pop3Step servers dialOk st script l
    if r.closed ∨ r.crashed then ⟨r.st, r.eff, r.closed, r.crashed⟩
    else
      let rr := pop3Run servers dialOk r.st ls r.rest
      ⟨rr.st, r.eff ++ rr.eff, rr.closed, rr.crashed⟩

/-! ### Upstream IMAP mailbox semantics

Modelled from the spec: the upstream server is external to the repository;
§4.3 gives the meaning of the issued `STORE`/`EXPUNGE` commands (set or
clear the `\Deleted` flag by sequence number, `EXPUNGE` removes flagged
messages).  Used to state that the `DELE`/`RSET`/`QUIT` sequence removes
no message. -/

/-- A mailbox: message identities paired with their `\Deleted` flag. -/
abbrev Mbox := List (Nat × Bool)

/-- `STORE n +FLAGS (\Deleted)`: flag the message at 1-based position `n`. -/
def setFlagAt : Int → Mbox → Mbox
  | _, [] => []
  | n, (id, f) :: rest =>
    if n = 1 then (id, true) :: rest else (id, f) :: setFlagAt (n - 1) rest

/-- `STORE 1:c -FLAGS (\Deleted)`: clear the flag on positions `1..c`. -/
def clearFlagsTo : Int → Mbox → Mbox
  | _, [] => []
  | c, (id, f) :: rest =>
    if c ≥ 1 then (id, false) :: clearFlagsTo (c - 1) rest else (id, f) :: rest

/-- `EXPUNGE`: drop every flagged message. -/
def expungeM (m : Mbox) : Mbox := m.filter (fun p => ¬ p.2)

/-- Effect of one issued command on the upstream mailbox. -/
def applyUpCmd (m : Mbox) : UpCmd → Mbox
  | .storeAdd _ n => setFlagAt n m
  | .storeClear _ c => clearFlagsTo c m
  | .expunge _ => expungeM m
  | _ => m

/-- Effect of a command sequence. -/
def applyUpCmds (m : Mbox) (cs : List UpCmd) : Mbox := cs.foldl applyUpCmd m

/-- The upstream commands among a list of effects. -/
def upCmdsOf (effs : List PEff) : List UpCmd :=
  effs.filterMap (fun e =>
    match e with
    | .toUpstream c => some c
    | _ => none)

/-- The tags of the upstream commands among a list of effects. -/
def effTags (effs : List PEff) : List Int := (upCmdsOf effs).map UpCmd.tag

/-! ### Basic lemmas about the string helpers -/

theorem isPrefixOf_append_self (l m : List Char) : l.isPrefixOf (l ++ m) = true := by
  induction l with
  | nil => simp [List.isPrefixOf]
  | cons a as ih => simp [List.isPrefixOf, ih]

theorem goHasPrefix_append (x y : String) : goHasPrefix (x ++ y) x = true := by
  simp [goHasPrefix, String.data_append, isPrefixOf_append_self]

theorem goHasPrefix_refl (x : String) : goHasPrefix x x = true := by
  have h := goHasPrefix_append x ""
  simpa using h

/-! ### C1 — SMTP DATA relay and dot-stuffing -/

/-- C1 (counterexample): the binary-safe DATA relay `handleSMTPDataMode`
— the one invoked by `handleSMTPSessionDynamic`'s `DATA` case — forwards
the accumulated client bytes verbatim.  The client line `"..hello\r\n"`
reaches upstream as `"..hello\r\n"` (no extra dot is prepended) and the
`"."` terminator line itself is part of the forwarded bytes, contradicting
the claim that every dot-initial body line gains an extra dot and the
terminator is never forwarded. -/
theorem handleSMTPDataMode_no_dot_stuffing :
    handleSMTPDataMode ["..hello\r\n", ".\r\n"] = some "..hello\r\n.\r\n" ∧
    ("..hello\r\n.\r\n" : String) ≠ "...hello\r\n.\r\n" := by
  constructor
  · rfl
  · decide

/-- C1 (amended): in the inline DATA relay of `handleSMTPCommands`, every
line whose trimmed text is not `"."` is forwarded as `dotStuffLine` of its
raw bytes — an extra `'.'` is prepended when the line starts with `'.'`,
the trailing terminator is stripped and replaced by CRLF — and the
terminator line itself is only ever sent as the end-of-message marker
`".\r\n"`; in particular `"..hello\r\n"` is forwarded as
`"...hello\r\n"`. -/
theorem legacyDataRelay_dot_stuffing (lines : List String)
    (h : ∀ l ∈ lines, goTrim l ≠ ".") :
    legacyDataRelay (lines ++ [".\r\n"]) = (lines.map dotStuffLine ++ [".\r\n"], true) ∧
    dotStuffLine "..hello\r\n" = "...hello\r\n" := by
  refine ⟨?_, by decide⟩
  induction lines with
  | nil => simp [legacyDataRelay]; decide
  | cons l ls ih =>
    have hl : goTrim l ≠ "." := h l (by simp)
    have ihh := ih (fun x hx => h x (by simp [hx]))
    simp [legacyDataRelay, hl, ihh]

/-- C1 (witness for the amended theorem). -/
theorem legacyDataRelay_dot_stuffing_witness :
    (∀ l ∈ (["..hello\r\n", "world\r\n"] : List String), goTrim l ≠ ".") ∧
    legacyDataRelay (["..hello\r\n", "world\r\n"] ++ [".\r\n"]) =
      (["...hello\r\n", "world\r\n"] ++ [".\r\n"], true) :=
  ⟨by decide, by
    have h := legacyDataRelay_dot_stuffing ["..hello\r\n", "world\r\n"] (by decide)
    simpa using h.1⟩

/-! ### C2 — authenticated MAIL FROM must match the authenticated user -/

/-- C2: in an authenticated SMTP session, a `MAIL FROM` whose extracted
sender differs from the authenticated username is answered `550 Sender
address must match authenticated user`, the state (including the absent
upstream connection) is unchanged, and no dial or upstream write occurs. -/
theorem mail_from_mismatch_550 (servers : List ServerConfig) (st : SmtpState)
    (line : String) (dialResult : Except String Unit) (script : List String)
    (hauth : st.isAuthenticated = true)
    (hne : extractEmailFromMailFrom line ≠ "")
    (hmm : extractEmailFromMailFrom line ≠ st.authUsername) :
    handleMAIL servers st line dialResult script =
      ⟨st, [.toClient "550 Sender address must match authenticated user\r\n"],
       script, false⟩ := by
  simp [handleMAIL, hauth, hne, hmm]

/-- C2 (witness): authenticated as `a@x.com`, `MAIL FROM:<b@y.com>` is
rejected with the 550 line and the state survives untouched. -/
theorem mail_from_mismatch_550_witness :
    handleMAIL [] { SmtpState.init with isAuthenticated := true, authUsername := "a@x.com" }
        "MAIL FROM:<b@y.com>" (.ok ()) [] =
      ⟨{ SmtpState.init with isAuthenticated := true, authUsername := "a@x.com" },
       [.toClient "550 Sender address must match authenticated user\r\n"], [], false⟩ :=
  mail_from_mismatch_550 [] _ "MAIL FROM:<b@y.com>" (.ok ()) []
    (by decide) (by decide) (by decide)

/-! ### C7 — RCPT TO without an upstream connection -/

/-- A session state that is authenticated but has no upstream connection. -/
def rcptNoUpstreamState : SmtpState :=
  { SmtpState.init with isAuthenticated := true, authUsername := "a@x.com" }

/-- C7 (counterexample): `RCPT TO` with no established upstream connection
is answered `530 Authentication required`, not a `451` response as the
claim states. -/
theorem rcpt_no_upstream_530 :
    handleRCPT rcptNoUpstreamState "RCPT TO:<c@d.com>" [] =
      (rcptNoUpstreamState, [.toClient "530 Authentication required\r\n"], []) ∧
    goHasPrefix "530 Authentication required\r\n" "451" = false := by
  constructor
  · rfl
  · decide

/-- C7 (amended): without an upstream connection (or without
authentication) `RCPT TO` is answered `530 Authentication required`
leaving the state unchanged; with an authenticated session and an upstream
connection, the `RCPT TO` line is forwarded verbatim (plus CRLF) and the
upstream response line is relayed verbatim to the client. -/
theorem rcpt_behavior :
    (∀ (st : SmtpState) (line : String) (script : List String),
      st.hasUpstream = false →
      handleRCPT st line script =
        (st, [.toClient "530 Authentication required\r\n"], script)) ∧
    (∀ (st : SmtpState) (line r : String) (rest : List String),
      st.isAuthenticated = true → st.hasUpstream = true →
      handleRCPT st line (r :: rest) =
        (st, [.toUpstream (line ++ "\r\n"), .toClient r], rest)) := by
  constructor
  · intro st line script h
    simp [handleRCPT, h]
  · intro st line r rest h1 h2
    simp [handleRCPT, h1, h2]

/-- C7 (witness for the amended theorem). -/
theorem rcpt_behavior_witness :
    handleRCPT rcptNoUpstreamState "RCPT TO:<c@d.com>" ["250 OK\r\n"] =
      (rcptNoUpstreamState, [.toClient "530 Authentication required\r\n"], ["250 OK\r\n"]) ∧
    handleRCPT { rcptNoUpstreamState with hasUpstream := true } "RCPT TO:<c@d.com>"
        ["250 OK\r\n"] =
      ({ rcptNoUpstreamState with hasUpstream := true },
       [.toUpstream ("RCPT TO:<c@d.com>" ++ "\r\n"), .toClient "250 OK\r\n"], []) :=
  ⟨rcpt_behavior.1 _ _ _ rfl, rcpt_behavior.2 _ _ _ _ rfl rfl⟩

/-! ### C10 — PASS before USER -/

/-- C10: a `PASS` received in `AUTHORIZATION` while no profile candidate is
resolved is answered `-ERR USER command first`; no dial happens, the state
is unchanged, the session stays open in `AUTHORIZATION`. -/
theorem pass_before_user (servers : List ServerConfig) (dialOk : Bool)
    (st : Pop3SessionState) (script : List String) (args : List String)
    (h1 : st.pop3State = "AUTHORIZATION") (h2 : st.serverConfig = none) :
    pop3Dispatch servers dialOk st script ("PASS" :: args) =
      ⟨st, [.toClient "-ERR USER command first\r\n"], script, false, false⟩ := by
  simp [pop3Dispatch, handlePASS, h1, h2]

/-- C10 (witness). -/
theorem pass_before_user_witness :
    pop3Dispatch [] true pop3Init [] ["PASS"] =
      ⟨pop3Init, [.toClient "-ERR USER command first\r\n"], [], false, false⟩ :=
  pass_before_user [] true pop3Init [] [] rfl rfl

/-! ### C4 — out-of-phase POP3 commands -/

/-- C4 (counterexample): `NOOP` in the `AUTHORIZATION` phase — outside its
valid `TRANSACTION` phase — is answered `+OK`, not
`-ERR Command not valid in this state` as the claim states (the `NOOP`
case carries no phase check at all). -/
theorem noop_in_authorization_ok :
    pop3Step [] true pop3Init [] "NOOP" =
      ⟨pop3Init, [.toClient "+OK\r\n"], [], false, false⟩ ∧
    ("+OK\r\n" : String) ≠ errBadState := by
  constructor
  · rfl
  · decide

/-- C4 (amended): each of the transaction-phase commands
`STAT/LIST/UIDL/RETR/TOP/DELE/RSET` received outside `TRANSACTION`, and
`USER`/`PASS` received outside `AUTHORIZATION`, is answered
`-ERR Command not valid in this state` with the session state unchanged
and nothing sent upstream; `NOOP`, however, is answered `+OK` in every
phase (again with unchanged state). -/
theorem out_of_phase_commands (servers : List ServerConfig) (dialOk : Bool)
    (st : Pop3SessionState) (script : List String) (cmd : String) (args : List String) :
    (cmd ∈ ["STAT", "LIST", "UIDL", "RETR", "TOP", "DELE", "RSET"] →
      st.pop3State ≠ "TRANSACTION" →
      pop3Dispatch servers dialOk st script (cmd :: args) =
        ⟨st, [.toClient errBadState], script, false, false⟩) ∧
    (cmd ∈ ["USER", "PASS"] → st.pop3State ≠ "AUTHORIZATION" →
      pop3Dispatch servers dialOk st script (cmd :: args) =
        ⟨st, [.toClient errBadState], script, false, false⟩) ∧
    (pop3Dispatch servers dialOk st script ("NOOP" :: args) =
      ⟨st, [.toClient "+OK\r\n"], script, false, false⟩) := by
  refine ⟨?_, ?_, ?_⟩
  · intro hmem hphase
    simp only [List.mem_cons, List.mem_singleton, List.not_mem_nil, or_false] at hmem
    rcases hmem with h | h | h | h | h | h | h <;> subst h <;>
      simp [pop3Dispatch, handleSTAT, handleLIST, handleUIDL, handleRETR,
            handleTOP, handleDELE, handleRSET, hphase]
  · intro hmem hphase
    simp only [List.mem_cons, List.mem_singleton, List.not_mem_nil, or_false] at hmem
    rcases hmem with h | h <;> subst h <;>
      simp [pop3Dispatch, handleUSER, handlePASS, hphase]
  · simp [pop3Dispatch, handleNOOP]

/-- A TRANSACTION-phase session state (post `USER`/`PASS`, three messages,
tag counter at 1002 after LOGIN and SELECT). -/
def imapCfgEx : MailServerConfig := ⟨"imap.example.com", 993, true, "alice", "secret"⟩

def serverCfgEx : ServerConfig := ⟨"example", none, some imapCfgEx, none⟩

def pop3TransState : Pop3SessionState :=
  { pop3Init with
      imapTag := 1002, authenticated := true, selectedMailbox := true,
      messageCount := 3, clientUsername := "ALICE",
      serverConfig := some serverCfgEx, pop3State := "TRANSACTION",
      hasUpstream := true, upstreamConfig := some imapCfgEx, protocol := "IMAP" }

/-- C4 (witness for the amended theorem): `STAT` in `AUTHORIZATION` and
`USER` in `TRANSACTION` both yield the invalid-state error; `NOOP` in
`AUTHORIZATION` yields `+OK`. -/
theorem out_of_phase_commands_witness :
    pop3Dispatch [] true pop3Init [] ["STAT"] =
      ⟨pop3Init, [.toClient errBadState], [], false, false⟩ ∧
    pop3Dispatch [] true pop3TransState [] ["USER", "BOB"] =
      ⟨pop3TransState, [.toClient errBadState], [], false, false⟩ ∧
    pop3Dispatch [] true pop3Init [] ["NOOP"] =
      ⟨pop3Init, [.toClient "+OK\r\n"], [], false, false⟩ :=
  ⟨(out_of_phase_commands [] true pop3Init [] "STAT" []).1 (by decide) (by decide),
   (out_of_phase_commands [] true pop3TransState [] "USER" ["BOB"]).2.1 (by decide) (by decide),
   (out_of_phase_commands [] true pop3Init [] "NOOP" []).2.2⟩

/-! ### C6 — STAT total size and LIST entries after SELECT reported 3 -/

/-- The client-visible lines among a list of effects. -/
def clientLines (effs : List PEff) : List String :=
  effs.filterMap (fun e =>
    match e with
    | .toClient s => some s
    | _ => none)

/-- The upstream script of the C6 scenario: IMAP greeting, LOGIN `OK`,
`SELECT` reporting 3 messages, `SELECT` completion. -/
def c6Script : List String :=
  ["* OK IMAP ready", "A1001 OK LOGIN completed", "* 3 EXISTS", "A1002 OK SELECT completed"]

/-- C6 (counterexample): in the `USER alice` / `PASS anything` / `STAT` /
`LIST` scenario against an IMAP profile whose SELECT reported 3 messages,
`STAT` replies `+OK 3 0` — the per-message placeholder size 1024 that
`LIST` reports is not applied to the `STAT` total (the `messages` slice is
never populated, so the summed total size is 0, not 3 × 1024 = 3072). -/
theorem stat_total_size_zero :
    clientLines (pop3Run [serverCfgEx] true pop3Init
        ["USER alice", "PASS anything", "STAT", "LIST"] c6Script).eff =
      ["+OK User accepted\r\n", "+OK Mailbox locked and ready\r\n",
       "+OK 3 0\r\n",
       "+OK 3 messages\r\n", "1 1024\r\n", "2 1024\r\n", "3 1024\r\n", ".\r\n"] ∧
    ("+OK 3 0\r\n" : String) ≠ "+OK " ++ toString (3 : Int) ++ " " ++
      toString (3 * 1024 : Int) ++ "\r\n" := by
  constructor
  · rfl
  · decide

/-- C6 (amended): with the `messages` slice in its never-populated state,
`STAT` in `TRANSACTION` with 3 counted messages replies `+OK 3 0`
(placeholder sizes are not applied to the total), while `LIST` returns
exactly 3 entries `<n> 1024` followed by a bare `.` line. -/
theorem stat_list_shape (st : Pop3SessionState) (script : List String)
    (h1 : st.pop3State = "TRANSACTION") (h2 : st.messages = [])
    (h3 : st.messageCount = 3) :
    handleSTAT st script = ⟨st, [.toClient "+OK 3 0\r\n"], script, false, false⟩ ∧
    handleLIST st ["LIST"] script =
      ⟨st, [.toClient "+OK 3 messages\r\n", .toClient "1 1024\r\n", .toClient "2 1024\r\n",
            .toClient "3 1024\r\n", .toClient ".\r\n"], script, false, false⟩ := by
  constructor
  · simp [handleSTAT, h1, h2, h3]
    decide
  · simp [handleLIST, h1, h3, listAllLines]
    decide

/-- C6 (witness for the amended theorem). -/
theorem stat_list_shape_witness :
    handleSTAT pop3TransState [] =
      ⟨pop3TransState, [.toClient "+OK 3 0\r\n"], [], false, false⟩ ∧
    handleLIST pop3TransState ["LIST"] [] =
      ⟨pop3TransState, [.toClient "+OK 3 messages\r\n", .toClient "1 1024\r\n",
        .toClient "2 1024\r\n", .toClient "3 1024\r\n", .toClient ".\r\n"], [], false, false⟩ :=
  stat_list_shape pop3TransState [] rfl rfl rfl

/-! ### C5 — TOP forwards all headers and `min(k, bodyLineCount)` body lines -/

theorem tagStr_data (t : Int) : (tagStr t).data = 'A' :: (toString t).data := by
  simp [tagStr, String.data_append]

/-- A line whose first character is not `'A'` never matches a tagged
status prefix. -/
theorem goHasPrefix_tag_of_head_ne (s : String) (t : Int) (suf : String)
    (h : s.data.head? ≠ some 'A') : goHasPrefix s (tagStr t ++ suf) = false := by
  unfold goHasPrefix
  rw [String.data_append, tagStr_data, List.cons_append]
  cases hs : s.data with
  | nil => rfl
  | cons c cs =>
    have hc : ('A' == c) = false := by
      rw [beq_eq_false_iff_ne]
      intro he
      apply h
      rw [hs, ← he]
      rfl
    simp [List.isPrefixOf, hc]

/-- A script line that is neither the literal marker, the tagged status,
nor a `)` line, as the TOP/RETR loops test it. -/
def plainLine (t : Int) (r : String) : Prop :=
  goContains r "RFC822" = false ∧
  goHasPrefix r (tagStr t ++ " OK") = false ∧
  goHasPrefix r ")" = false

instance (t : Int) (r : String) : Decidable (plainLine t r) := by
  unfold plainLine
  infer_instance

theorem topLoop_tail (t k : Int) (closing tagged : String) (extra : List String)
    (hcl1 : goContains closing "RFC822" = false)
    (hcl2 : goHasPrefix closing (tagStr t ++ " OK") = false)
    (hcl3 : goHasPrefix closing ")" = true)
    (ht1 : goContains tagged "RFC822" = false)
    (ht2 : goHasPrefix tagged (tagStr t ++ " OK") = true) :
    ∀ c : Int, topLoop t k (closing :: tagged :: extra) true true c = ([], extra) := by
  intro c
  rw [topLoop]
  simp only [hcl1, hcl2, hcl3, ht1, ht2]
  rw [topLoop]
  simp [ht1, ht2]

theorem topLoop_body (t k : Int) (body rest extra : List String)
    (hb : ∀ b ∈ body, plainLine t b)
    (hrest : ∀ c : Int, topLoop t k rest true true c = ([], extra)) :
    ∀ b : Int, topLoop t k (body ++ rest) true true b =
      ((body.take (k - b).toNat).map (· ++ "\r\n"), extra) := by
  induction body with
  | nil =>
    intro b
    simpa using hrest b
  | cons x xs ih =>
    intro b
    obtain ⟨hx1, hx2, hx3⟩ := hb x (by simp)
    have ih' := ih (fun y hy => hb y (by simp [hy]))
    by_cases hbk : b < k
    · have h1 : (k - b).toNat = (k - (b + 1)).toNat + 1 := by omega
      simp [topLoop, hx1, hx2, hx3, hbk, ih' (b + 1), h1]
    · have h1 : (k - b).toNat = 0 := by omega
      have h2 : (k - (b : Int)).toNat = 0 := h1
      simp [topLoop, hx1, hx2, hx3, hbk, ih' b, h1]

theorem topLoop_after_sep (t k : Int) (rest : List String) (out extra : List String)
    (h : topLoop t k rest true true 0 = (out, extra)) :
    topLoop t k (("" : String) :: rest) true false 0 = ("\r\n" :: out, extra) := by
  have h1 : goContains "" "RFC822" = false := by decide
  have h2 : goHasPrefix "" (tagStr t ++ " OK") = false :=
    goHasPrefix_tag_of_head_ne "" t " OK" (by simp)
  have h3 : goHasPrefix "" ")" = false := by decide
  simp [topLoop, h1, h2, h3, h]

theorem topLoop_headers (t k : Int) (headers rest : List String) (out extra : List String)
    (hh : ∀ h ∈ headers, plainLine t h ∧ h ≠ "")
    (hrest : topLoop t k rest true false 0 = (out, extra)) :
    topLoop t k (headers ++ rest) true false 0 =
      (headers.map (· ++ "\r\n") ++ out, extra) := by
  induction headers with
  | nil => simpa using hrest
  | cons x xs ih =>
    obtain ⟨⟨hx1, hx2, hx3⟩, hx4⟩ := hh x (by simp)
    have ih' := ih (fun y hy => hh y (by simp [hy]))
    simp [topLoop, hx1, hx2, hx3, hx4, ih']

theorem topLoop_marker (t k : Int) (marker : String) (rest : List String)
    (out extra : List String) (hm : goContains marker "RFC822" = true)
    (h : topLoop t k rest true false 0 = (out, extra)) :
    topLoop t k (marker :: rest) false false 0 = (out, extra) := by
  simp [topLoop, hm, h]

/-- C5: for a valid message number and any non-negative `k`, the `TOP n k`
translation forwards the FETCH command upstream, then sends the client
`+OK Top of message follows`, every header line, the blank separator,
exactly the first `min(k, bodyLineCount)` body lines, and a terminating
`.` line; the remaining script is left untouched. -/
theorem top_min_body_lines (st : Pop3SessionState) (ps ks : String) (n k : Int)
    (headers body : List String) (marker closing tagged : String) (extra : List String)
    (h1 : st.pop3State = "TRANSACTION") (hup : st.hasUpstream = true)
    (hn : atoi? ps = some n) (hk : atoi? ks = some k)
    (hn1 : 1 ≤ n) (hn2 : n ≤ st.messageCount) (hk0 : 0 ≤ k)
    (hm : goContains marker "RFC822" = true)
    (hh : ∀ h ∈ headers, plainLine (st.imapTag + 1) h ∧ h ≠ "")
    (hb : ∀ b ∈ body, plainLine (st.imapTag + 1) b)
    (hcl1 : goContains closing "RFC822" = false)
    (hcl2 : goHasPrefix closing (tagStr (st.imapTag + 1) ++ " OK") = false)
    (hcl3 : goHasPrefix closing ")" = true)
    (ht1 : goContains tagged "RFC822" = false)
    (ht2 : goHasPrefix tagged (tagStr (st.imapTag + 1) ++ " OK") = true) :
    handleTOP st ["TOP", ps, ks]
        (marker :: (headers ++ [""] ++ body ++ [closing, tagged] ++ extra)) =
      ⟨{ st with imapTag := st.imapTag + 1 },
        .toUpstream (.fetch (st.imapTag + 1) n) ::
          .toClient "+OK Top of message follows\r\n" ::
          ((headers.map (· ++ "\r\n") ++ "\r\n" ::
            (body.take k.toNat).map (· ++ "\r\n")).map PEff.toClient ++
            [.toClient ".\r\n"]),
        extra, false, false⟩ ∧
    (body.take k.toNat).length = min k.toNat body.length := by
  have htail := topLoop_tail (st.imapTag + 1) k closing tagged extra hcl1 hcl2 hcl3 ht1 ht2
  have hbody := topLoop_body (st.imapTag + 1) k body (closing :: tagged :: extra) extra hb
    htail 0
  have hsep := topLoop_after_sep (st.imapTag + 1) k (body ++ closing :: tagged :: extra)
    ((body.take (k - 0).toNat).map (· ++ "\r\n")) extra hbody
  have hheads := topLoop_headers (st.imapTag + 1) k headers
    (("" : String) :: (body ++ closing :: tagged :: extra))
    ("\r\n" :: (body.take (k - 0).toNat).map (· ++ "\r\n")) extra hh hsep
  have hmark := topLoop_marker (st.imapTag + 1) k marker
    (headers ++ ("" : String) :: (body ++ closing :: tagged :: extra))
    (headers.map (· ++ "\r\n") ++ "\r\n" :: (body.take (k - 0).toNat).map (· ++ "\r\n"))
    extra hm hheads
  have hnbound : ¬ (n < 1 ∨ n > st.messageCount) := by omega
  have hkbound : ¬ k < 0 := by omega
  constructor
  · have hshape : (marker :: (headers ++ [""] ++ body ++ [closing, tagged] ++ extra)) =
        (marker :: (headers ++ ("" : String) :: (body ++ closing :: tagged :: extra))) := by
      simp
    rw [hshape]
    simp only [handleTOP, List.getD_cons_succ, List.getD_cons_zero, hn, hk]
    rw [if_neg (by simp [h1]), if_neg (by simp)]
    rw [if_neg hnbound, if_neg hkbound, if_neg (by simp [hup])]
    rw [hmark]
    simp [List.map_append]
  · simp [List.length_take]

/-- C5 (witness): `TOP 1 1` over a message with one header line and two
body lines forwards the header, the separator, one body line and the
terminating dot. -/
theorem top_min_body_lines_witness :
    handleTOP pop3TransState ["TOP", "1", "1"]
        ("* 1 FETCH (RFC822 {26}" ::
          (["From: x"] ++ [""] ++ ["b1", "b2"] ++ [")", "A1003 OK FETCH completed"] ++ [])) =
      ⟨{ pop3TransState with imapTag := 1003 },
        .toUpstream (.fetch 1003 1) :: .toClient "+OK Top of message follows\r\n" ::
          ((["From: x"].map (· ++ "\r\n") ++ "\r\n" ::
            (["b1", "b2"].take 1).map (· ++ "\r\n")).map PEff.toClient ++
            [.toClient ".\r\n"]),
        [], false, false⟩ ∧
    ((["b1", "b2"] : List String).take 1).length = min 1 2 := by
  have h := top_min_body_lines pop3TransState "1" "1" 1 1 ["From: x"] ["b1", "b2"]
    "* 1 FETCH (RFC822 {26}" ")" "A1003 OK FETCH completed" []
    rfl rfl (by decide) (by decide) (by decide) (by decide) (by decide) (by decide)
    (by decide) (by decide) (by decide) (by decide) (by decide) (by decide) (by decide)
  simpa [pop3TransState, pop3Init] using h

/-! ### C8 — failed STARTTLS aborts before any TLS handshake, but the
session panics instead of delivering the 451 -/

/-- The example SMTP upstream profile (submission port, STARTTLS). -/
def smtpCfgEx : MailServerConfig := ⟨"smtp.example.com", 587, true, "u@example.com", "pw"⟩

def smtpServerCfgEx : ServerConfig := ⟨"s", none, none, some smtpCfgEx⟩

/-- C8 (code bug): when the upstream answers `STARTTLS` with anything not
starting in `220`, `upgradeToSTARTTLS` does return an error having emitted
only the two `EHLO`/`STARTTLS` sends — no TLS handshake is attempted — but
`connectToUpstream` then calls `Close` on the nil connection the failed
upgrade returned, an unrecovered panic that kills the session.  The `451`
the claim promises is written only on `connectToUpstream`'s clean error
return, which this branch never reaches, so the client never receives it. -/
theorem starttls_non220_panics (cfg : MailServerConfig)
    (hport : cfg.port = 587) (htls : cfg.useTLS = true) (hsOk : Bool)
    (g e r : String) (restS : List String)
    (he : isLastRespLine e = true) (hr : goHasPrefix r "220" = false) :
    upgradeToSTARTTLS cfg hsOk (g :: e :: r :: restS) =
      ([.send "EHLO localhost\r\n", .send "STARTTLS\r\n"],
       .error ("STARTTLS failed: " ++ r)) ∧
    ConnEff.tlsHandshake ∉
      [ConnEff.send "EHLO localhost\r\n", ConnEff.send "STARTTLS\r\n"] ∧
    connectToUpstream cfg true hsOk (g :: e :: r :: restS) =
      ([ConnEff.dialPlain, .send "EHLO localhost\r\n", .send "STARTTLS\r\n"],
       ConnResult.panicked) := by
  have hup : upgradeToSTARTTLS cfg hsOk (g :: e :: r :: restS) =
      ([.send "EHLO localhost\r\n", .send "STARTTLS\r\n"],
       .error ("STARTTLS failed: " ++ r)) := by
    simp [upgradeToSTARTTLS, skipMultiline, he, hr]
  refine ⟨hup, by simp, ?_⟩
  simp [connectToUpstream, hport, htls, hup]

/-- C8 (witness): evaluating the pipeline at the failing input — a 587
STARTTLS profile whose upstream answers `454` to `STARTTLS`. -/
theorem starttls_non220_panics_witness :
    upgradeToSTARTTLS smtpCfgEx true
        ["220 hello", "250 smtp.example.com", "454 TLS not available"] =
      ([.send "EHLO localhost\r\n", .send "STARTTLS\r\n"],
       .error ("STARTTLS failed: " ++ "454 TLS not available")) ∧
    ConnEff.tlsHandshake ∉
      [ConnEff.send "EHLO localhost\r\n", ConnEff.send "STARTTLS\r\n"] ∧
    connectToUpstream smtpCfgEx true true
        ["220 hello", "250 smtp.example.com", "454 TLS not available"] =
      ([ConnEff.dialPlain, .send "EHLO localhost\r\n", .send "STARTTLS\r\n"],
       ConnResult.panicked) :=
  starttls_non220_panics smtpCfgEx rfl rfl true "220 hello" "250 smtp.example.com"
    "454 TLS not available" [] (by decide) (by decide)

/-! ### C9 — DELE 2, RSET, QUIT: command order and no message removed -/

theorem map_fst_setFlagAt (n : Int) (m : Mbox) :
    (setFlagAt n m).map Prod.fst = m.map Prod.fst := by
  induction m generalizing n with
  | nil => rfl
  | cons p rest ih =>
    obtain ⟨id, f⟩ := p
    by_cases h : n = 1 <;> simp [setFlagAt, h, ih]

theorem length_setFlagAt (n : Int) (m : Mbox) :
    (setFlagAt n m).length = m.length := by
  have h := map_fst_setFlagAt n m
  have h1 := congrArg List.length h
  simpa using h1

theorem clearFlagsTo_all_false (c : Int) (m : Mbox)
    (h : (m.length : Int) ≤ c) : ∀ p ∈ clearFlagsTo c m, p.2 = false := by
  induction m generalizing c with
  | nil => intro p hp; simp [clearFlagsTo] at hp
  | cons q rest ih =>
    obtain ⟨id, f⟩ := q
    have hc : c ≥ 1 := by
      simp [List.length_cons] at h
      omega
    intro p hp
    simp only [clearFlagsTo, if_pos hc, List.mem_cons] at hp
    rcases hp with hp | hp
    · rw [hp]
    · exact ih (c - 1) (by simp [List.length_cons] at h; omega) p hp

theorem map_fst_clearFlagsTo (c : Int) (m : Mbox) :
    (clearFlagsTo c m).map Prod.fst = m.map Prod.fst := by
  induction m generalizing c with
  | nil => rfl
  | cons p rest ih =>
    obtain ⟨id, f⟩ := p
    by_cases h : c ≥ 1 <;> simp [clearFlagsTo, h, ih]

theorem expungeM_of_all_false (m : Mbox) (h : ∀ p ∈ m, p.2 = false) :
    expungeM m = m := by
  unfold expungeM
  rw [List.filter_eq_self]
  intro p hp
  simp [h p hp]

/-- C9: from a TRANSACTION session with at least 2 counted messages, the
client sequence `DELE 2`, `RSET`, `QUIT` issues upstream, in order,
`STORE 2 +FLAGS (\Deleted)`, `STORE 1:<count> -FLAGS (\Deleted)`,
`EXPUNGE`, `LOGOUT` under four strictly increasing tags; and because the
`RSET` translation clears every `\Deleted` flag in `1:<count>` before
`EXPUNGE`, a mailbox of at most `<count>` messages retains exactly its
messages — none is removed. -/
theorem dele_rset_quit_no_removal (servers : List ServerConfig) (dialOk : Bool)
    (st : Pop3SessionState) (mbox : Mbox)
    (h1 : st.pop3State = "TRANSACTION") (hup : st.hasUpstream = true)
    (hc2 : 2 ≤ st.messageCount) (hlen : (mbox.length : Int) ≤ st.messageCount) :
    upCmdsOf (pop3Run servers dialOk st ["DELE 2", "RSET", "QUIT"]
        [tagStr (st.imapTag + 1) ++ " OK", tagStr (st.imapTag + 1 + 1) ++ " OK",
         tagStr (st.imapTag + 1 + 1 + 1) ++ " OK"]).eff =
      [.storeAdd (st.imapTag + 1) 2,
       .storeClear (st.imapTag + 1 + 1) st.messageCount,
       .expunge (st.imapTag + 1 + 1 + 1),
       .logout (st.imapTag + 1 + 1 + 1 + 1)] ∧
    (applyUpCmds mbox
        [.storeAdd (st.imapTag + 1) 2,
         .storeClear (st.imapTag + 1 + 1) st.messageCount,
         .expunge (st.imapTag + 1 + 1 + 1),
         .logout (st.imapTag + 1 + 1 + 1 + 1)]).map Prod.fst =
      mbox.map Prod.fst := by
  constructor
  · -- evaluate the three steps of the run
    have hb2 : ¬ ((2 : Int) < 1 ∨ (2 : Int) > st.messageCount) := by omega
    have ea : atoi? "2" = some 2 := rfl
    have hstep1 : pop3Step servers dialOk st
        [tagStr (st.imapTag + 1) ++ " OK", tagStr (st.imapTag + 1 + 1) ++ " OK",
         tagStr (st.imapTag + 1 + 1 + 1) ++ " OK"] "DELE 2" =
        ⟨{ st with imapTag := st.imapTag + 1 },
         [.toUpstream (.storeAdd (st.imapTag + 1) 2),
          .toClient ("+OK Message " ++ toString (2 : Int) ++ " deleted\r\n")],
         [tagStr (st.imapTag + 1 + 1) ++ " OK", tagStr (st.imapTag + 1 + 1 + 1) ++ " OK"],
         false, false⟩ := by
      have e1 : pop3Step servers dialOk st
          [tagStr (st.imapTag + 1) ++ " OK", tagStr (st.imapTag + 1 + 1) ++ " OK",
           tagStr (st.imapTag + 1 + 1 + 1) ++ " OK"] "DELE 2" =
          handleDELE st ["DELE", "2"]
          [tagStr (st.imapTag + 1) ++ " OK", tagStr (st.imapTag + 1 + 1) ++ " OK",
           tagStr (st.imapTag + 1 + 1 + 1) ++ " OK"] := rfl
      rw [e1]
      simp only [handleDELE, List.getD_cons_succ, List.getD_cons_zero, ea]
      rw [if_neg (by simp [h1]), if_neg (by decide), if_neg hb2, if_neg (by simp [hup])]
      simp [readUntilOK, goHasPrefix_refl]
    have hstep2 : pop3Step servers dialOk { st with imapTag := st.imapTag + 1 }
        [tagStr (st.imapTag + 1 + 1) ++ " OK", tagStr (st.imapTag + 1 + 1 + 1) ++ " OK"]
        "RSET" =
        ⟨{ st with imapTag := st.imapTag + 1 + 1 },
         [.toUpstream (.storeClear (st.imapTag + 1 + 1) st.messageCount),
          .toClient "+OK\r\n"],
         [tagStr (st.imapTag + 1 + 1 + 1) ++ " OK"], false, false⟩ := by
      have e1 : pop3Step servers dialOk { st with imapTag := st.imapTag + 1 }
          [tagStr (st.imapTag + 1 + 1) ++ " OK", tagStr (st.imapTag + 1 + 1 + 1) ++ " OK"]
          "RSET" =
          handleRSET { st with imapTag := st.imapTag + 1 }
          [tagStr (st.imapTag + 1 + 1) ++ " OK",
           tagStr (st.imapTag + 1 + 1 + 1) ++ " OK"] := rfl
      rw [e1]
      simp only [handleRSET]
      rw [if_neg (by simp [h1]), if_neg (by simp [hup])]
      simp [readUntilOK, goHasPrefix_refl]
    have hstep3 : pop3Step servers dialOk { st with imapTag := st.imapTag + 1 + 1 }
        [tagStr (st.imapTag + 1 + 1 + 1) ++ " OK"] "QUIT" =
        ⟨{ st with imapTag := st.imapTag + 1 + 1 + 1 + 1 },
         [.toUpstream (.expunge (st.imapTag + 1 + 1 + 1)),
          .toUpstream (.logout (st.imapTag + 1 + 1 + 1 + 1)),
          .toClient "+OK Goodbye\r\n"],
         [], true, false⟩ := by
      have e1 : pop3Step servers dialOk { st with imapTag := st.imapTag + 1 + 1 }
          [tagStr (st.imapTag + 1 + 1 + 1) ++ " OK"] "QUIT" =
          handleQUIT { st with imapTag := st.imapTag + 1 + 1 }
          [tagStr (st.imapTag + 1 + 1 + 1) ++ " OK"] := rfl
      rw [e1]
      simp only [handleQUIT]
      rw [if_pos (by simp [h1]), if_neg (by simp [hup])]
      simp [readUntilOK, goHasPrefix_refl]
    simp [pop3Run, hstep1, hstep2, hstep3, upCmdsOf]
  · -- mailbox preservation
    have hall : ∀ p ∈ clearFlagsTo st.messageCount (setFlagAt 2 mbox), p.2 = false :=
      clearFlagsTo_all_false st.messageCount (setFlagAt 2 mbox)
        (by rw [length_setFlagAt]; exact hlen)
    simp only [applyUpCmds, List.foldl, applyUpCmd]
    rw [expungeM_of_all_false _ hall, map_fst_clearFlagsTo, map_fst_setFlagAt]

/-- C9 (witness): a concrete three-message mailbox (one message already
flagged) survives the sequence intact. -/
theorem dele_rset_quit_no_removal_witness :
    upCmdsOf (pop3Run [] true pop3TransState ["DELE 2", "RSET", "QUIT"]
        [tagStr (pop3TransState.imapTag + 1) ++ " OK",
         tagStr (pop3TransState.imapTag + 1 + 1) ++ " OK",
         tagStr (pop3TransState.imapTag + 1 + 1 + 1) ++ " OK"]).eff =
      [.storeAdd (pop3TransState.imapTag + 1) 2,
       .storeClear (pop3TransState.imapTag + 1 + 1) pop3TransState.messageCount,
       .expunge (pop3TransState.imapTag + 1 + 1 + 1),
       .logout (pop3TransState.imapTag + 1 + 1 + 1 + 1)] ∧
    (applyUpCmds [(10, false), (20, true), (30, false)]
        [.storeAdd (pop3TransState.imapTag + 1) 2,
         .storeClear (pop3TransState.imapTag + 1 + 1) pop3TransState.messageCount,
         .expunge (pop3TransState.imapTag + 1 + 1 + 1),
         .logout (pop3TransState.imapTag + 1 + 1 + 1 + 1)]).map Prod.fst =
      ([(10, false), (20, true), (30, false)] : Mbox).map Prod.fst :=
  dele_rset_quit_no_removal [] true pop3TransState [(10, false), (20, true), (30, false)]
    rfl rfl (by decide) (by decide)

/-! ### C3 — IMAP tags strictly increase, starting above the fixed offset -/

@[simp] theorem upCmdsOf_nil : upCmdsOf [] = [] := rfl

@[simp] theorem upCmdsOf_cons_toClient (s : String) (l : List PEff) :
    upCmdsOf (.toClient s :: l) = upCmdsOf l := rfl

@[simp] theorem upCmdsOf_cons_toUpstream (c : UpCmd) (l : List PEff) :
    upCmdsOf (.toUpstream c :: l) = c :: upCmdsOf l := rfl

@[simp] theorem upCmdsOf_cons_dial (h : String) (p : Int) (b : Bool) (l : List PEff) :
    upCmdsOf (.dial h p b :: l) = upCmdsOf l := rfl

@[simp] theorem upCmdsOf_append (a b : List PEff) :
    upCmdsOf (a ++ b) = upCmdsOf a ++ upCmdsOf b := by
  simp [upCmdsOf, List.filterMap_append]

@[simp] theorem upCmdsOf_map_toClient (l : List String) :
    upCmdsOf (l.map PEff.toClient) = [] := by
  induction l with
  | nil => rfl
  | cons x xs ih => simp [upCmdsOf] at ih ⊢

@[simp] theorem effTags_nil : effTags [] = [] := rfl

theorem effTags_append (a b : List PEff) :
    effTags (a ++ b) = effTags a ++ effTags b := by
  simp [effTags]

theorem chain_lt_append {a b : List Int} {m : Int}
    (ha : List.Chain' (· < ·) a) (hb : List.Chain' (· < ·) b)
    (hA : ∀ x ∈ a, x ≤ m) (hB : ∀ y ∈ b, m < y) :
    List.Chain' (· < ·) (a ++ b) := by
  rw [List.chain'_append]
  refine ⟨ha, hb, fun x hx y hy => ?_⟩
  have hxa := hA x (List.mem_of_mem_getLast? hx)
  have hyb := hB y (List.mem_of_mem_head? hy)
  omega

@[simp] theorem effTags_cons_toClient (s : String) (l : List PEff) :
    effTags (.toClient s :: l) = effTags l := rfl

@[simp] theorem effTags_cons_dial (h : String) (p : Int) (b : Bool) (l : List PEff) :
    effTags (.dial h p b :: l) = effTags l := rfl

@[simp] theorem effTags_cons_toUpstream (c : UpCmd) (l : List PEff) :
    effTags (.toUpstream c :: l) = c.tag :: effTags l := rfl

@[simp] theorem effTags_map_toClient (l : List String) :
    effTags (l.map PEff.toClient) = [] := by
  simp [effTags]

@[simp] theorem tag_login (t : Int) (u p : String) : (UpCmd.login t u p).tag = t := rfl
@[simp] theorem tag_selectInbox (t : Int) : (UpCmd.selectInbox t).tag = t := rfl
@[simp] theorem tag_fetch (t n : Int) : (UpCmd.fetch t n).tag = t := rfl
@[simp] theorem tag_storeAdd (t n : Int) : (UpCmd.storeAdd t n).tag = t := rfl
@[simp] theorem tag_storeClear (t c : Int) : (UpCmd.storeClear t c).tag = t := rfl
@[simp] theorem tag_expunge (t : Int) : (UpCmd.expunge t).tag = t := rfl
@[simp] theorem tag_logout (t : Int) : (UpCmd.logout t).tag = t := rfl

theorem handleUSER_tags (servers : List ServerConfig) (st : Pop3SessionState)
    (parts script : List String) :
    st.imapTag ≤ (handleUSER servers st parts script).st.imapTag ∧
    List.Chain' (· < ·) (effTags (handleUSER servers st parts script).eff) ∧
    ∀ t ∈ effTags (handleUSER servers st parts script).eff,
      st.imapTag < t ∧ t ≤ (handleUSER servers st parts script).st.imapTag := by
  simp only [handleUSER]
  repeat' split
  all_goals simp [effTags]

theorem passFinish_tags (st : Pop3SessionState) (s : List String) :
    (passFinish st s).st.imapTag = st.imapTag ∧ effTags (passFinish st s).eff = [] := by
  simp [passFinish, effTags]

theorem passSelect_tags (ucfg : MailServerConfig) (st : Pop3SessionState)
    (s : List String) :
    st.imapTag ≤ (passSelect ucfg st s).st.imapTag ∧
    List.Chain' (· < ·) (effTags (passSelect ucfg st s).eff) ∧
    ∀ t ∈ effTags (passSelect ucfg st s).eff,
      st.imapTag < t ∧ t ≤ (passSelect ucfg st s).st.imapTag := by
  simp only [passSelect]
  repeat' split
  all_goals simp [effTags, PStep.withEff, passFinish]

theorem passAuth_tags (ucfg : MailServerConfig) (st : Pop3SessionState)
    (s : List String) :
    st.imapTag ≤ (passAuth ucfg st s).st.imapTag ∧
    List.Chain' (· < ·) (effTags (passAuth ucfg st s).eff) ∧
    ∀ t ∈ effTags (passAuth ucfg st s).eff,
      st.imapTag < t ∧ t ≤ (passAuth ucfg st s).st.imapTag := by
  simp only [passAuth]
  split
  · split
    · -- tagged OK: continue with SELECT
      rename_i rest heq
      obtain ⟨a1, a2, a3⟩ :=
        passSelect_tags ucfg { st with imapTag := st.imapTag + 1, authenticated := true } rest
      simp only [PStep.withEff, List.singleton_append, effTags_cons_toUpstream,
        tag_login] at *
      refine ⟨by omega, ?_, ?_⟩
      · rw [List.chain'_cons']
        refine ⟨fun y hy => ?_, a2⟩
        have := (a3 y (List.mem_of_mem_head? hy)).1
        omega
      · intro t ht
        rcases List.mem_cons.mp ht with ht | ht
        · subst ht
          exact ⟨by omega, by omega⟩
        · have h := a3 t ht
          exact ⟨by omega, h.2⟩
    · -- tagged NO/BAD
      simp [effTags]
    · -- scanner exhausted
      simp [effTags]
  · exact passSelect_tags ucfg st s

theorem handlePASS_tags (servers : List ServerConfig) (dialOk : Bool)
    (st : Pop3SessionState) (script : List String) :
    st.imapTag ≤ (handlePASS servers dialOk st script).st.imapTag ∧
    List.Chain' (· < ·) (effTags (handlePASS servers dialOk st script).eff) ∧
    ∀ t ∈ effTags (handlePASS servers dialOk st script).eff,
      st.imapTag < t ∧ t ≤ (handlePASS servers dialOk st script).st.imapTag := by
  simp only [handlePASS]
  split
  · simp [effTags]
  · split
    · simp [effTags]
    · split
      · simp [effTags]
      · rename_i ucfg proto heq
        split
        · split
          · simp [effTags]
          · obtain ⟨a1, a2, a3⟩ := passAuth_tags ucfg
              { st with upstreamConfig := some ucfg, protocol := proto, hasUpstream := true }
              (script.drop 1)
            simp only [PStep.withEff, List.singleton_append, effTags_cons_dial] at *
            exact ⟨a1, a2, a3⟩
        · exact passAuth_tags ucfg { st with upstreamConfig := some ucfg, protocol := proto }
            script

theorem handleSTAT_tags (st : Pop3SessionState) (script : List String) :
    st.imapTag ≤ (handleSTAT st script).st.imapTag ∧
    List.Chain' (· < ·) (effTags (handleSTAT st script).eff) ∧
    ∀ t ∈ effTags (handleSTAT st script).eff,
      st.imapTag < t ∧ t ≤ (handleSTAT st script).st.imapTag := by
  simp only [handleSTAT]
  repeat' split
  all_goals simp [effTags]

theorem handleLIST_tags (st : Pop3SessionState) (parts script : List String) :
    st.imapTag ≤ (handleLIST st parts script).st.imapTag ∧
    List.Chain' (· < ·) (effTags (handleLIST st parts script).eff) ∧
    ∀ t ∈ effTags (handleLIST st parts script).eff,
      st.imapTag < t ∧ t ≤ (handleLIST st parts script).st.imapTag := by
  simp only [handleLIST]
  repeat' split
  all_goals simp [effTags]

theorem handleUIDL_tags (st : Pop3SessionState) (parts script : List String) :
    st.imapTag ≤ (handleUIDL st parts script).st.imapTag ∧
    List.Chain' (· < ·) (effTags (handleUIDL st parts script).eff) ∧
    ∀ t ∈ effTags (handleUIDL st parts script).eff,
      st.imapTag < t ∧ t ≤ (handleUIDL st parts script).st.imapTag := by
  simp only [handleUIDL]
  repeat' split
  all_goals simp [effTags]

theorem handleRETR_tags (st : Pop3SessionState) (parts script : List String) :
    st.imapTag ≤ (handleRETR st parts script).st.imapTag ∧
    List.Chain' (· < ·) (effTags (handleRETR st parts script).eff) ∧
    ∀ t ∈ effTags (handleRETR st parts script).eff,
      st.imapTag < t ∧ t ≤ (handleRETR st parts script).st.imapTag := by
  simp only [handleRETR]
  repeat' split
  all_goals simp [effTags]

theorem handleTOP_tags (st : Pop3SessionState) (parts script : List String) :
    st.imapTag ≤ (handleTOP st parts script).st.imapTag ∧
    List.Chain' (· < ·) (effTags (handleTOP st parts script).eff) ∧
    ∀ t ∈ effTags (handleTOP st parts script).eff,
      st.imapTag < t ∧ t ≤ (handleTOP st parts script).st.imapTag := by
  simp only [handleTOP]
  repeat' split
  all_goals simp [effTags]

theorem handleDELE_tags (st : Pop3SessionState) (parts script : List String) :
    st.imapTag ≤ (handleDELE st parts script).st.imapTag ∧
    List.Chain' (· < ·) (effTags (handleDELE st parts script).eff) ∧
    ∀ t ∈ effTags (handleDELE st parts script).eff,
      st.imapTag < t ∧ t ≤ (handleDELE st parts script).st.imapTag := by
  simp only [handleDELE]
  repeat' split
  all_goals simp [effTags]

theorem handleNOOP_tags (st : Pop3SessionState) (script : List String) :
    st.imapTag ≤ (handleNOOP st script).st.imapTag ∧
    List.Chain' (· < ·) (effTags (handleNOOP st script).eff) ∧
    ∀ t ∈ effTags (handleNOOP st script).eff,
      st.imapTag < t ∧ t ≤ (handleNOOP st script).st.imapTag := by
  simp [handleNOOP, effTags]

theorem handleRSET_tags (st : Pop3SessionState) (script : List String) :
    st.imapTag ≤ (handleRSET st script).st.imapTag ∧
    List.Chain' (· < ·) (effTags (handleRSET st script).eff) ∧
    ∀ t ∈ effTags (handleRSET st script).eff,
      st.imapTag < t ∧ t ≤ (handleRSET st script).st.imapTag := by
  simp only [handleRSET]
  repeat' split
  all_goals simp [effTags]

theorem handleQUIT_tags (st : Pop3SessionState) (script : List String) :
    st.imapTag ≤ (handleQUIT st script).st.imapTag ∧
    List.Chain' (· < ·) (effTags (handleQUIT st script).eff) ∧
    ∀ t ∈ effTags (handleQUIT st script).eff,
      st.imapTag < t ∧ t ≤ (handleQUIT st script).st.imapTag := by
  simp only [handleQUIT]
  repeat' split
  all_goals simp [effTags]
  all_goals omega

theorem pop3Dispatch_tags (servers : List ServerConfig) (dialOk : Bool)
    (st : Pop3SessionState) (script parts : List String) :
    st.imapTag ≤ (pop3Dispatch servers dialOk st script parts).st.imapTag ∧
    List.Chain' (· < ·) (effTags (pop3Dispatch servers dialOk st script parts).eff) ∧
    ∀ t ∈ effTags (pop3Dispatch servers dialOk st script parts).eff,
      st.imapTag < t ∧ t ≤ (pop3Dispatch servers dialOk st script parts).st.imapTag := by
  cases parts with
  | nil => simp [pop3Dispatch, effTags]
  | cons cmd rest =>
    simp only [pop3Dispatch]
    by_cases h1 : cmd = "USER"
    · simp only [if_pos h1]; apply handleUSER_tags
    simp only [if_neg h1]
    by_cases h2 : cmd = "PASS"
    · simp only [if_pos h2]; apply handlePASS_tags
    simp only [if_neg h2]
    by_cases h3 : cmd = "STAT"
    · simp only [if_pos h3]; apply handleSTAT_tags
    simp only [if_neg h3]
    by_cases h4 : cmd = "LIST"
    · simp only [if_pos h4]; apply handleLIST_tags
    simp only [if_neg h4]
    by_cases h5 : cmd = "UIDL"
    · simp only [if_pos h5]; apply handleUIDL_tags
    simp only [if_neg h5]
    by_cases h6 : cmd = "RETR"
    · simp only [if_pos h6]; apply handleRETR_tags
    simp only [if_neg h6]
    by_cases h7 : cmd = "TOP"
    · simp only [if_pos h7]; apply handleTOP_tags
    simp only [if_neg h7]
    by_cases h8 : cmd = "DELE"
    · simp only [if_pos h8]; apply handleDELE_tags
    simp only [if_neg h8]
    by_cases h9 : cmd = "NOOP"
    · simp only [if_pos h9]; apply handleNOOP_tags
    simp only [if_neg h9]
    by_cases h10 : cmd = "RSET"
    · simp only [if_pos h10]; apply handleRSET_tags
    simp only [if_neg h10]
    by_cases h11 : cmd = "QUIT"
    · simp only [if_pos h11]; apply handleQUIT_tags
    simp only [if_neg h11]
    simp [effTags]

theorem pop3Step_tags (servers : List ServerConfig) (dialOk : Bool)
    (st : Pop3SessionState) (script : List String) (line : String) :
    st.imapTag ≤ (pop3Step servers dialOk st script line).st.imapTag ∧
    List.Chain' (· < ·) (effTags (pop3Step servers dialOk st script line).eff) ∧
    ∀ t ∈ effTags (pop3Step servers dialOk st script line).eff,
      st.imapTag < t ∧ t ≤ (pop3Step servers dialOk st script line).st.imapTag := by
  simp only [pop3Step]
  split
  · simp [effTags]
  · apply pop3Dispatch_tags

theorem pop3Run_tags (servers : List ServerConfig) (dialOk : Bool)
    (lines : List String) :
    ∀ (st : Pop3SessionState) (script : List String),
      st.imapTag ≤ (pop3Run servers dialOk st lines script).st.imapTag ∧
      List.Chain' (· < ·) (effTags (pop3Run servers dialOk st lines script).eff) ∧
      ∀ t ∈ effTags (pop3Run servers dialOk st lines script).eff,
        st.imapTag < t ∧ t ≤ (pop3Run servers dialOk st lines script).st.imapTag := by
  induction lines with
  | nil =>
    intro st script
    simp [pop3Run, effTags]
  | cons l ls ih =>
    intro st script
    obtain ⟨h1, h2, h3⟩ := pop3Step_tags servers dialOk st script l
    rw [pop3Run]
    split
    · exact ⟨h1, h2, h3⟩
    · obtain ⟨g1, g2, g3⟩ :=
        ih (pop3Step servers dialOk st script l).st (pop3Step servers dialOk st script l).rest
      refine ⟨le_trans h1 g1, ?_, ?_⟩
      · simp only [effTags_append]
        exact chain_lt_append h2 g2
          (fun x hx => (h3 x hx).2)
          (fun y hy => (g3 y hy).1)
      · intro t ht
        simp only [effTags_append, List.mem_append] at ht
        rcases ht with ht | ht
        · exact ⟨(h3 t ht).1, le_trans (h3 t ht).2 g1⟩
        · exact ⟨lt_of_le_of_lt h1 (g3 t ht).1, (g3 t ht).2⟩

/-- C3: over any client-line sequence and upstream script, the IMAP tags
the translator sends upstream form a strictly increasing sequence (hence
no tag value is ever reused), every tag lying strictly above the session's
fixed starting offset 1000. -/
theorem imap_tags_strictly_increasing (servers : List ServerConfig) (dialOk : Bool)
    (lines script : List String) :
    List.Chain' (· < ·)
      (effTags (pop3Run servers dialOk pop3Init lines script).eff) ∧
    ∀ t ∈ effTags (pop3Run servers dialOk pop3Init lines script).eff, 1000 < t := by
  have h := pop3Run_tags servers dialOk lines pop3Init script
  exact ⟨h.2.1, fun t ht => (h.2.2 t ht).1⟩

end ProxyMail
